import Mathlib

/-!
Shallow embedding of `smart_fast_crawler.py` (class `SmartBFSAsyncCrawler`).

URLs and HTML bodies are strings.  The network, the HTML anchor extractor
(BeautifulSoup), the URL resolver (`urljoin`) and the netloc component of
`urlparse` are abstracted into an `Env` record: the crawler's own logic
(filters, seeding, the round loop, depth accounting, visited bookkeeping)
is translated from the source.

Concurrency model: the source creates all tasks of a round and then
gathers them.  Each `handle_url` task synchronously adds its URL to the
visited set before its first true suspension point (the HTTP request), so
within a round every visited-add happens before any fetch completes and
before any link is enqueued.  The embedding therefore runs a round in two
phases: first all dispatched URLs join the visited set, then the units'
fetch/append/enqueue effects are applied in batch order (a deterministic
stand-in for the unspecified completion order; the properties proved below
do not depend on that order).
-/

namespace SmartBFSAsyncCrawler

/-- Python `str.strip()`: drop whitespace from both ends. -/
def pyStrip (s : String) : String :=
  String.mk (((s.data.dropWhile Char.isWhitespace).reverse.dropWhile Char.isWhitespace).reverse)

/-- Python `str.lower()` (per-character lowering). -/
def pyLower (s : String) : String :=
  String.mk (s.data.map Char.toLower)

/-- Python `str.endswith(suf)`. -/
def strEndsWith (s suf : String) : Bool :=
  suf.data.isSuffixOf s.data

/-- Python `url.split("#")[0]`: the part of the string before the first `#`. -/
def cutFragment (url : String) : String :=
  String.mk (url.data.takeWhile (fun c => c != '#'))

/-- Python `url.rstrip("/")`: drop every trailing `/`. -/
def rstripSlash (url : String) : String :=
  String.mk ((url.data.reverse.dropWhile (fun c => c == '/')).reverse)

/-- The part of a URL string before its first `?`.  This models the claim
language "its path does not end in a denylisted extension" for comparison
with the source's full-string test: in an absolute URL with its fragment
already stripped, everything after the path is the query, so the path ends
in an extension exactly when the URL cut at `?` does. -/
def cutQuery (url : String) : String :=
  String.mk (url.data.takeWhile (fun c => c != '?'))

/-- One insertion into a Python `set` modelled as a duplicate-free list in
insertion order. -/
def setAdd (l : List String) (u : String) : List String :=
  if u ∈ l then l else l ++ [u]

/-- A Python `set` built by inserting the elements of `l` in order. -/
def pySet (l : List String) : List String :=
  l.foldl setAdd []

/-- The abstracted outside world of one crawl: HTTP responses (`none` models
a transport error or timeout raised by `session.get`), the anchor hrefs
BeautifulSoup finds in a body, `urljoin`, `urlparse(...).netloc`, the robots
state, and the sitemap request/parse results (`none` for `sitemap_locs`
models `ET.fromstring` raising). -/
structure Env where
  response : String → Option (Nat × String)
  anchors : String → List String
  resolve : String → String → String
  netloc : String → String
  robots_loaded : Bool
  robots_can_fetch : String → Option Bool
  sitemap_response : Option (Nat × String)
  sitemap_locs : String → Option (List String)

/-- The configuration fields set in `__init__`. -/
structure Crawler where
  base_url : String
  base_domain : String
  max_tasks : Nat
  max_depth : Nat
deriving Repr, DecidableEq

/-- `__init__`: normalize the base URL to end in `/`, record its netloc as
the base domain. -/
def initCrawler (env : Env) (base_url : String) (max_tasks max_depth : Nat) : Crawler :=
  let b := if strEndsWith base_url "/" then base_url else base_url ++ "/"
  { base_url := b
    base_domain := env.netloc b
    max_tasks := max_tasks
    max_depth := max_depth }

/-- `is_internal`: empty netloc or netloc equal to the base domain. -/
def is_internal (env : Env) (c : Crawler) (url : String) : Bool :=
  env.netloc url == "" || env.netloc url == c.base_domain

/-- The extension denylist of `is_valid_url`. -/
def irrelevant_exts : List String :=
  [".jpg", ".jpeg", ".png", ".gif", ".css", ".js", ".ico",
   ".svg", ".woff", ".ttf", ".otf", ".eot", ".pdf", ".zip", ".txt",
   ".xml", ".mp4", ".webm", ".avi", ".mp3", ".json"]

/-- `is_valid_url`: `not url.lower().endswith(irrelevant_exts)` — the test is
applied to the whole lowercased URL string. -/
def is_valid_url (url : String) : Bool :=
  !(irrelevant_exts.any (fun e => strEndsWith (pyLower url) e))

/-- `can_fetch`: permissive when robots.txt was not loaded; when loaded, ask
the parsed policy, with an exception (`none`) defaulting to permit. -/
def can_fetch (env : Env) (url : String) : Bool :=
  if env.robots_loaded then (env.robots_can_fetch url).getD true else true

/-- `fetch`: `None` on any raised transport error or timeout; content only
for status 200 with a truthy body whose stripped length exceeds 100. -/
def fetch (env : Env) (url : String) : Option String :=
  match env.response url with
  | none => none
  | some (status, html) =>
    if status = 200 then
      if html ≠ "" ∧ 100 < (pyStrip html).length then some html else none
    else none

/-- `parse_links`: every anchor href is stripped, resolved against the page
URL, cut at `#`, right-stripped of `/`; a candidate joins the set when it is
internal, valid by extension, and robots-permitted. -/
def parse_links (env : Env) (c : Crawler) (html base_url : String) : List String :=
  pySet (((env.anchors html).map
      (fun href => rstripSlash (cutFragment (env.resolve base_url (pyStrip href))))).filter
    (fun u => is_internal env c u && is_valid_url u && can_fetch env u))

/-- `parse_sitemap`: returns the collected URL set together with the
`sitemap_loaded` flag.  A raised request (`none` response), a non-200
status, or a parse failure all leave the set empty and the flag `false`;
on success the `loc` texts are stripped and filtered by `is_internal` and
`is_valid_url`. -/
def parse_sitemap (env : Env) (c : Crawler) : List String × Bool :=
  match env.sitemap_response with
  | none => ([], false)
  | some (status, text) =>
    if status = 200 then
      match env.sitemap_locs text with
      | none => ([], false)
      | some locs =>
        (pySet ((locs.map pyStrip).filter
          (fun u => is_internal env c u && is_valid_url u)), true)
    else ([], false)

/-- The mutable crawl state: the frontier queue, the visited set (insertion
order), and the result list. -/
structure CrawlState where
  urls_to_visit : List (String × Nat)
  visited_urls : List String
  result_urls : List String
deriving Repr, DecidableEq

/-- The state just before the round loop: robots and sitemap bootstrap done,
frontier seeded from the sitemap set at depth 0 when `sitemap_loaded` and
the set is non-empty, else from the (normalized) base URL alone. -/
def initState (env : Env) (c : Crawler) : CrawlState :=
  let sr := parse_sitemap env c
  { urls_to_visit :=
      if sr.2 && !sr.1.isEmpty then sr.1.map (fun u => (u, 0)) else [(c.base_url, 0)]
    visited_urls := []
    result_urls := [] }

/-- Number of queue entries dequeued this round: `min(max_tasks, qsize)`. -/
def batchLen (c : Crawler) (s : CrawlState) : Nat :=
  min c.max_tasks s.urls_to_visit.length

/-- The entries dequeued this round. -/
def roundBatch (c : Crawler) (s : CrawlState) : List (String × Nat) :=
  s.urls_to_visit.take (batchLen c s)

/-- The per-entry dispatch filter of the round loop: not yet visited and
depth within the limit. -/
def keepEntry (c : Crawler) (s : CrawlState) (e : String × Nat) : Bool :=
  decide (e.1 ∉ s.visited_urls) && decide (e.2 ≤ c.max_depth)

/-- The entries of this round's batch for which a `handle_url` task is
created. -/
def roundDispatched (c : Crawler) (s : CrawlState) : List (String × Nat) :=
  (roundBatch c s).filter (keepEntry c s)

/-- The effects of one `handle_url` unit past its initial visited-add:
the URLs it appends to the results and the entries it enqueues.  `visited`
is the visited set after phase one of the round (all dispatched URLs
added); link expansion happens only below the depth limit and skips links
already visited. -/
def handle_url (env : Env) (c : Crawler) (visited : List String) (e : String × Nat) :
    List String × List (String × Nat) :=
  match fetch env e.1 with
  | none => ([], [])
  | some html =>
    ([e.1],
      if e.2 < c.max_depth then
        (parse_links env c html e.1).filterMap
          (fun link => if link ∈ visited then none else some (link, e.2 + 1))
      else [])

/-- One iteration of the round loop body: dequeue the batch, filter, add all
dispatched URLs to the visited set, then apply every unit's effects. -/
def applyRound (env : Env) (c : Crawler) (s : CrawlState) : CrawlState :=
  let disp := roundDispatched c s
  let visited1 := s.visited_urls ++ disp.map Prod.fst
  let outs := disp.map (handle_url env c visited1)
  { urls_to_visit := s.urls_to_visit.drop (batchLen c s) ++ (outs.map Prod.snd).flatten
    visited_urls := visited1
    result_urls := s.result_urls ++ (outs.map Prod.fst).flatten }

/-- Unconditional iteration of rounds (used to speak about "any later
round"). -/
def iterRound (env : Env) (c : Crawler) : Nat → CrawlState → CrawlState
  | 0, s => s
  | n + 1, s => iterRound env c n (applyRound env c s)

/-- The `while not queue.empty()` loop, fuelled. -/
def crawlLoop (env : Env) (c : Crawler) : Nat → CrawlState → CrawlState
  | 0, s => s
  | n + 1, s =>
    if s.urls_to_visit.isEmpty then s else crawlLoop env c n (applyRound env c s)

/-- A whole `crawl()` invocation from a caller-supplied base URL. -/
def crawlRun (env : Env) (base_url : String) (max_tasks max_depth fuel : Nat) : CrawlState :=
  let c := initCrawler env base_url max_tasks max_depth
  crawlLoop env c fuel (initState env c)

/-! Concrete environments and states used by counterexamples and witnesses. -/

/-- A 150-character body, above the 100-character content floor. -/
def longBody : String := String.mk (List.replicate 150 'a')

/-- A world where every request fails: no robots, no sitemap, every page
fetch raises. -/
def envBad : Env :=
  { response := fun _ => none
    anchors := fun _ => []
    resolve := fun _ href => href
    netloc := fun _ => ""
    robots_loaded := false
    robots_can_fetch := fun _ => none
    sitemap_response := none
    sitemap_locs := fun _ => none }

/-- A world where every page fetch yields status 200 with a large body and
no anchors; robots and sitemap still fail. -/
def envUp : Env :=
  { envBad with response := fun _ => some (200, longBody) }

/-- A world whose sitemap request succeeds with one location entry. -/
def envSite : Env :=
  { envBad with
      sitemap_response := some (200, "doc")
      sitemap_locs := fun _ => some ["https://w.test/a"] }

/-- A world whose pages contain one anchor resolving to an internal page. -/
def envLinks : Env :=
  { envBad with
      anchors := fun _ => [" /a "]
      resolve := fun _ href => "https://w.test" ++ href }

/-- A world whose pages contain one anchor whose path ends in `.jpg` but
which carries a query string. -/
def envQuery : Env :=
  { envBad with
      anchors := fun _ => ["/a.jpg?x=1"]
      resolve := fun _ href => "https://w.test" ++ href }

/-- A small crawler configuration. -/
def cW : Crawler :=
  { base_url := "https://w.test/", base_domain := "", max_tasks := 500, max_depth := 3 }

/-- A crawler configuration whose batch size is 1. -/
def cOne : Crawler :=
  { base_url := "https://w.test/", base_domain := "", max_tasks := 1, max_depth := 3 }

/-- A state with one frontier entry and one already-visited URL. -/
def sVisited : CrawlState :=
  { urls_to_visit := [("https://w.test/a", 0)]
    visited_urls := ["https://w.test/v"]
    result_urls := [] }

/-- A two-entry frontier whose first entry is already visited. -/
def sTwo : CrawlState :=
  { urls_to_visit := [("u", 0), ("v", 0)], visited_urls := ["u"], result_urls := [] }

/-! Membership lemmas for the Python-set model. -/

theorem mem_setAdd {l : List String} {u v : String} :
    v ∈ setAdd l u ↔ v ∈ l ∨ v = u := by
  unfold setAdd
  split
  · next h => exact ⟨Or.inl, fun hv => hv.elim id (fun e => e ▸ h)⟩
  · simp [List.mem_append]

theorem mem_foldl_setAdd (l : List String) (acc : List String) (v : String) :
    v ∈ l.foldl setAdd acc ↔ v ∈ acc ∨ v ∈ l := by
  induction l generalizing acc with
  | nil => simp
  | cons a t ih =>
    rw [List.foldl_cons, ih, mem_setAdd, List.mem_cons]
    tauto

theorem mem_pySet {l : List String} {v : String} : v ∈ pySet l ↔ v ∈ l := by
  unfold pySet
  rw [mem_foldl_setAdd]
  simp

/-! Claim theorems. -/

/-- C1: every entry the round loop dispatches to a fetch-and-expand unit has
depth ≤ max_depth, and a unit enqueues links only when its own entry's depth
is strictly below max_depth, each at depth + 1 (hence also ≤ max_depth). -/
theorem dispatched_depth_le_max_depth (env : Env) (c : Crawler) (s : CrawlState)
    (visited : List String) (e : String × Nat) :
    (∀ d ∈ roundDispatched c s, d.2 ≤ c.max_depth) ∧
    (∀ l ∈ (handle_url env c visited e).2, e.2 < c.max_depth ∧ l.2 = e.2 + 1) := by
  constructor
  · intro d hd
    have h := List.of_mem_filter hd
    simp only [keepEntry, Bool.and_eq_true, decide_eq_true_eq] at h
    exact h.2
  · intro l hl
    unfold handle_url at hl
    match hf : fetch env e.1 with
    | none => rw [hf] at hl; simp at hl
    | some html =>
      rw [hf] at hl
      dsimp only at hl
      by_cases hd : e.2 < c.max_depth
      · rw [if_pos hd] at hl
        obtain ⟨link, _, hlink⟩ := List.mem_filterMap.mp hl
        refine ⟨hd, ?_⟩
        by_cases hv : link ∈ visited
        · rw [if_pos hv] at hlink; cases hlink
        · rw [if_neg hv] at hlink
          cases hlink
          rfl
      · rw [if_neg hd] at hl; cases hl

theorem dispatched_depth_le_max_depth_witness :
    (("https://w.test/a", 2) : String × Nat).2 ≤ cW.max_depth :=
  (dispatched_depth_le_max_depth envBad cW
      { urls_to_visit := [("https://w.test/a", 2)], visited_urls := [], result_urls := [] }
      [] ("x", 0)).1 ("https://w.test/a", 2) (by decide)

/-- C7: the fetcher is a total function (exceptions are caught); it yields
content only for a response whose status is a success status (in fact
exactly 200) with a stripped body longer than 100 characters, and yields
no content on a raised transport error or timeout, on any non-success
status, and on an under-sized body. -/
theorem fetch_content_conditions (env : Env) (url : String) :
    (env.response url = none → fetch env url = none) ∧
    (∀ st html h, env.response url = some (st, html) → fetch env url = some h →
      200 ≤ st ∧ st < 300 ∧ 100 < (pyStrip html).length ∧ h = html) ∧
    (∀ st html, env.response url = some (st, html) → st < 200 ∨ 300 ≤ st →
      fetch env url = none) ∧
    (∀ st html, env.response url = some (st, html) → (pyStrip html).length ≤ 100 →
      fetch env url = none) := by
  refine ⟨?_, ?_, ?_, ?_⟩
  · intro h
    unfold fetch
    rw [h]
  · intro st html h hresp hf
    unfold fetch at hf
    rw [hresp] at hf
    dsimp only at hf
    by_cases h200 : st = 200
    · subst h200
      rw [if_pos rfl] at hf
      by_cases hc : html ≠ "" ∧ 100 < (pyStrip html).length
      · rw [if_pos hc] at hf
        cases hf
        exact ⟨by omega, by omega, hc.2, rfl⟩
      · rw [if_neg hc] at hf; cases hf
    · rw [if_neg h200] at hf; cases hf
  · intro st html hresp hrange
    unfold fetch
    rw [hresp]
    dsimp only
    rw [if_neg (by omega)]
  · intro st html hresp hlen
    unfold fetch
    rw [hresp]
    dsimp only
    by_cases h200 : st = 200
    · rw [if_pos h200, if_neg]
      intro hc
      omega
    · rw [if_neg h200]

theorem fetch_content_conditions_witness : fetch envBad "https://w.test/" = none :=
  (fetch_content_conditions envBad "https://w.test/").1 rfl

/-- C8 counterexample: the claim requires every candidate's path not to end
in a denylisted extension, but the code's `is_valid_url` tests the full URL
string: an anchor `/a.jpg?x=1` resolves to `https://w.test/a.jpg?x=1`,
whose path (the URL cut at its query) ends in `.jpg`, yet `parse_links`
returns it, because the full string ends in `1`. -/
theorem parse_links_path_extension_counterexample :
    "https://w.test/a.jpg?x=1" ∈
        parse_links envQuery cW "page body" "https://w.test/p" ∧
    strEndsWith (pyLower (cutQuery "https://w.test/a.jpg?x=1")) ".jpg" = true ∧
    ".jpg" ∈ irrelevant_exts := by
  refine ⟨by decide, by decide, by decide⟩

/-- C8 amended: every candidate produced by `parse_links` is some anchor's
stripped href resolved against the page URL, cut at its fragment and
right-stripped of trailing slashes, and it passed the `is_internal` gate,
the extension gate on the full lowercased URL string (`is_valid_url`, not a
path-only test), and the `can_fetch` robots gate. -/
theorem parse_links_sound (env : Env) (c : Crawler) (html base_url l : String)
    (hl : l ∈ parse_links env c html base_url) :
    (∃ href, href ∈ env.anchors html ∧
        l = rstripSlash (cutFragment (env.resolve base_url (pyStrip href)))) ∧
    is_internal env c l = true ∧ is_valid_url l = true ∧ can_fetch env l = true := by
  unfold parse_links at hl
  rw [mem_pySet] at hl
  have h1 := List.mem_of_mem_filter hl
  have h2 := List.of_mem_filter hl
  simp only [Bool.and_eq_true] at h2
  obtain ⟨href, hhref, heq⟩ := List.mem_map.mp h1
  exact ⟨⟨href, hhref, heq.symm⟩, h2.1.1, h2.1.2, h2.2⟩

theorem parse_links_sound_witness :
    (∃ href, href ∈ envLinks.anchors "page body" ∧
        "https://w.test/a" =
          rstripSlash (cutFragment (envLinks.resolve "https://w.test/p" (pyStrip href)))) ∧
    is_internal envLinks cW "https://w.test/a" = true ∧
    is_valid_url "https://w.test/a" = true ∧
    can_fetch envLinks "https://w.test/a" = true :=
  parse_links_sound envLinks cW "page body" "https://w.test/p" "https://w.test/a" (by decide)

/-- C10: the extension denylist is tested against the whole lowercased URL
string, not the path component: a URL accepted or rejected exactly when the
full lowercased string fails to end in a listed extension, so a query
string ending in `.jpg` causes rejection while `.jpg` followed by a query
is accepted. -/
theorem is_valid_url_tests_full_string (url : String) :
    (is_valid_url "https://w.test/page?img=x.jpg" = false ∧
     is_valid_url "https://w.test/a.jpg?x=1" = true) ∧
    (is_valid_url url = true ↔
      ∀ e ∈ irrelevant_exts, strEndsWith (pyLower url) e = false) := by
  refine ⟨⟨by decide, by decide⟩, ?_⟩
  unfold is_valid_url
  simp

theorem is_valid_url_tests_full_string_witness :
    strEndsWith (pyLower "https://w.test/ok") ".jpg" = false :=
  ((is_valid_url_tests_full_string "https://w.test/ok").2.mp (by decide)) ".jpg"
    (by simp [irrelevant_exts])

/-! Helper lemmas for the visited-set invariant. -/

theorem visited_subset_applyRound (env : Env) (c : Crawler) (s : CrawlState) :
    ∀ u ∈ s.visited_urls, u ∈ (applyRound env c s).visited_urls := by
  intro u hu
  unfold applyRound
  exact List.mem_append_left _ hu

theorem visited_subset_iterRound (env : Env) (c : Crawler) (n : Nat) (s : CrawlState) :
    ∀ u ∈ s.visited_urls, u ∈ (iterRound env c n s).visited_urls := by
  induction n generalizing s with
  | zero => intro u hu; exact hu
  | succ m ih =>
    intro u hu
    exact ih _ u (visited_subset_applyRound env c s u hu)

/-- C5: the visited set only grows across rounds, and once a URL is in the
visited set no later round ever dispatches a fetch-and-expand unit for it
(at any depth). -/
theorem visited_monotone_no_redispatch (env : Env) (c : Crawler) (s : CrawlState) :
    (∀ u ∈ s.visited_urls, u ∈ (applyRound env c s).visited_urls) ∧
    (∀ n u d, u ∈ s.visited_urls → (u, d) ∉ roundDispatched c (iterRound env c n s)) := by
  refine ⟨visited_subset_applyRound env c s, ?_⟩
  intro n u d hu hmem
  have hk := List.of_mem_filter hmem
  simp only [keepEntry, Bool.and_eq_true, decide_eq_true_eq] at hk
  exact hk.1 (visited_subset_iterRound env c n s u hu)

theorem visited_monotone_no_redispatch_witness :
    "https://w.test/v" ∈ (applyRound envBad cW sVisited).visited_urls :=
  (visited_monotone_no_redispatch envBad cW sVisited).1 "https://w.test/v" (by decide)

/-- C2: when the sitemap bootstrap reports `sitemap_loaded` with a non-empty
URL set, the initial frontier is exactly that set paired with depth 0 — in
particular the homepage is enqueued only if it is itself in the set. -/
theorem sitemap_seeds_frontier (env : Env) (c : Crawler) (us : List String)
    (h : parse_sitemap env c = (us, true)) (hne : us ≠ []) :
    (initState env c).urls_to_visit = us.map (fun u => (u, 0)) := by
  have hemp : us.isEmpty = false := by
    cases us with
    | nil => exact absurd rfl hne
    | cons a t => rfl
  simp [initState, h, hemp]

theorem sitemap_seeds_frontier_witness :
    (initState envSite cW).urls_to_visit = ["https://w.test/a"].map (fun u => (u, 0)) :=
  sitemap_seeds_frontier envSite cW ["https://w.test/a"] (by decide) (by decide)

/-- C3 counterexample: the claim says the fallback seed is the URL string
supplied at construction time, but `__init__` appends a trailing slash:
with supplied base `https://example.com` and a failed sitemap bootstrap the
frontier is `[("https://example.com/", 0)]`, not
`[("https://example.com", 0)]`. -/
theorem fallback_seed_not_supplied_string :
    (initState envBad (initCrawler envBad "https://example.com" 500 3)).urls_to_visit
        = [("https://example.com/", 0)] ∧
    (initState envBad (initCrawler envBad "https://example.com" 500 3)).urls_to_visit
        ≠ [("https://example.com", 0)] := by
  constructor
  · decide
  · decide

/-- C3 amended: when the sitemap bootstrap yields nothing (request raised,
non-200, parse failure, or everything filtered out), the frontier holds
exactly one entry at depth 0: the supplied base URL normalized by appending
a trailing `/` when it does not already end in one. -/
theorem fallback_seeds_normalized_base (env : Env) (base_url : String) (mt md : Nat)
    (us : List String) (loaded : Bool)
    (h : parse_sitemap env (initCrawler env base_url mt md) = (us, loaded))
    (hfail : loaded = false ∨ us = []) :
    (initState env (initCrawler env base_url mt md)).urls_to_visit =
      [((if strEndsWith base_url "/" then base_url else base_url ++ "/"), 0)] := by
  have hcond : (loaded && !us.isEmpty) = false := by
    rcases hfail with rfl | rfl
    · simp
    · simp
  simp only [initState, h]
  simp [hcond, initCrawler]

theorem fallback_seeds_normalized_base_witness :
    (initState envBad (initCrawler envBad "https://example.com" 500 3)).urls_to_visit =
      [((if strEndsWith "https://example.com" "/" then "https://example.com"
          else "https://example.com" ++ "/"), 0)] :=
  fallback_seeds_normalized_base envBad "https://example.com" 500 3 [] false
    (by decide) (Or.inl rfl)

/-- The round loop leaves a state with an empty frontier untouched. -/
theorem crawlLoop_of_empty (env : Env) (c : Crawler) (n : Nat) (s : CrawlState)
    (h : s.urls_to_visit = []) : crawlLoop env c n s = s := by
  cases n with
  | zero => rfl
  | succ m =>
    have he : s.urls_to_visit.isEmpty = true := by rw [h]; rfl
    unfold crawlLoop
    rw [if_pos he]

set_option maxRecDepth 10000 in
/-- C4 counterexample: with `max_tasks = 1` and frontier
`[("u", 0), ("v", 0)]` where `u` is already visited, the round dequeues the
non-empty batch `[("u", 0)]` and filters out every entry, yet the crawl is
not terminal: the remaining frontier is non-empty and the continued run
still fetches `v`. -/
theorem done_condition_counterexample :
    roundBatch cOne sTwo ≠ [] ∧
    roundDispatched cOne sTwo = [] ∧
    (applyRound envUp cOne sTwo).urls_to_visit = [("v", 0)] ∧
    (crawlLoop envUp cOne 3 sTwo).result_urls = ["v"] := by
  refine ⟨by decide, by decide, by decide, ?_⟩
  decide

/-- C4 amended: the loop is terminal exactly when the frontier is empty at a
round boundary — it returns the state unchanged on an empty frontier and
always runs another round otherwise; a round whose batch is entirely
filtered out empties the frontier (and so terminates the crawl) only when
that batch covered the whole frontier, i.e. when the frontier size is at
most `max_tasks`. -/
theorem terminal_iff_empty_frontier (env : Env) (c : Crawler) (s : CrawlState) :
    (∀ n, s.urls_to_visit = [] → crawlLoop env c n s = s) ∧
    (∀ n, s.urls_to_visit ≠ [] →
      crawlLoop env c (n + 1) s = crawlLoop env c n (applyRound env c s)) ∧
    (roundDispatched c s = [] → s.urls_to_visit.length ≤ c.max_tasks →
      (applyRound env c s).urls_to_visit = []) := by
  refine ⟨fun n h => crawlLoop_of_empty env c n s h, ?_, ?_⟩
  · intro n h
    have he : s.urls_to_visit.isEmpty = false := by
      cases hq : s.urls_to_visit with
      | nil => exact absurd hq h
      | cons a t => rfl
    conv_lhs => unfold crawlLoop
    rw [if_neg (by simp [he])]
  · intro hdisp hlen
    have hmin : batchLen c s = s.urls_to_visit.length := by
      unfold batchLen
      omega
    simp [applyRound, hdisp, hmin, List.drop_length]

theorem terminal_iff_empty_frontier_witness :
    crawlLoop envBad cW 3 { urls_to_visit := [], visited_urls := [], result_urls := [] } =
      { urls_to_visit := [], visited_urls := [], result_urls := [] } :=
  (terminal_iff_empty_frontier envBad cW
      { urls_to_visit := [], visited_urls := [], result_urls := [] }).1 3 rfl

/-! Helper lemmas for the same-domain invariant. -/

/-- Every link produced by `parse_links` passed the `is_internal` gate. -/
theorem parse_links_internal (env : Env) (c : Crawler) (html base_url : String) :
    ∀ l ∈ parse_links env c html base_url, is_internal env c l = true := by
  intro l hl
  unfold parse_links at hl
  rw [mem_pySet] at hl
  have h := List.of_mem_filter hl
  simp only [Bool.and_eq_true] at h
  exact h.1.1

/-- Every URL collected by `parse_sitemap` passed the `is_internal` gate. -/
theorem parse_sitemap_internal (env : Env) (c : Crawler) :
    ∀ u ∈ (parse_sitemap env c).1, is_internal env c u = true := by
  intro u hu
  unfold parse_sitemap at hu
  match hresp : env.sitemap_response with
  | none => rw [hresp] at hu; simp at hu
  | some (st, text) =>
    rw [hresp] at hu
    dsimp only at hu
    by_cases h200 : st = 200
    · rw [if_pos h200] at hu
      match hlocs : env.sitemap_locs text with
      | none => rw [hlocs] at hu; simp at hu
      | some locs =>
        rw [hlocs] at hu
        dsimp only at hu
        rw [mem_pySet] at hu
        have h := List.of_mem_filter hu
        simp only [Bool.and_eq_true] at h
        exact h.1
    · rw [if_neg h200] at hu; simp at hu

/-- A unit appends to the results only its own entry's URL. -/
theorem handle_url_result_own_url (env : Env) (c : Crawler) (v : List String)
    (d : String × Nat) : ∀ u ∈ (handle_url env c v d).1, u = d.1 := by
  intro u hu
  unfold handle_url at hu
  match hf : fetch env d.1 with
  | none => rw [hf] at hu; simp at hu
  | some html =>
    rw [hf] at hu
    dsimp only at hu
    rw [List.mem_singleton] at hu
    exact hu

/-- Every entry a unit enqueues carries an internal URL. -/
theorem handle_url_enqueued_internal (env : Env) (c : Crawler) (v : List String)
    (d : String × Nat) : ∀ e ∈ (handle_url env c v d).2, is_internal env c e.1 = true := by
  intro e he
  unfold handle_url at he
  match hf : fetch env d.1 with
  | none => rw [hf] at he; simp at he
  | some html =>
    rw [hf] at he
    dsimp only at he
    by_cases hd : d.2 < c.max_depth
    · rw [if_pos hd] at he
      obtain ⟨link, hlink, heq⟩ := List.mem_filterMap.mp he
      by_cases hv : link ∈ v
      · rw [if_pos hv] at heq; cases heq
      · rw [if_neg hv] at heq
        cases heq
        exact parse_links_internal env c html d.1 link hlink
    · rw [if_neg hd] at he; cases he

/-- The same-domain invariant: every frontier entry and every result URL is
internal. -/
def InternalInv (env : Env) (c : Crawler) (s : CrawlState) : Prop :=
  (∀ e ∈ s.urls_to_visit, is_internal env c e.1 = true) ∧
  (∀ u ∈ s.result_urls, is_internal env c u = true)

theorem internalInv_applyRound (env : Env) (c : Crawler) (s : CrawlState)
    (h : InternalInv env c s) : InternalInv env c (applyRound env c s) := by
  obtain ⟨hq, hr⟩ := h
  have hdisp : ∀ d ∈ roundDispatched c s, is_internal env c d.1 = true := by
    intro d hd
    exact hq d (List.mem_of_mem_take (List.mem_of_mem_filter hd))
  constructor
  · intro e he
    unfold applyRound at he
    dsimp only at he
    rcases List.mem_append.mp he with h1 | h1
    · exact hq e (List.mem_of_mem_drop h1)
    · rw [List.mem_flatten] at h1
      obtain ⟨lst, hlst, helst⟩ := h1
      rw [List.mem_map] at hlst
      obtain ⟨pair, hpair, hpeq⟩ := hlst
      rw [List.mem_map] at hpair
      obtain ⟨d, hd, hdeq⟩ := hpair
      subst hdeq
      subst hpeq
      exact handle_url_enqueued_internal env c _ d e helst
  · intro u hu
    unfold applyRound at hu
    dsimp only at hu
    rcases List.mem_append.mp hu with h1 | h1
    · exact hr u h1
    · rw [List.mem_flatten] at h1
      obtain ⟨lst, hlst, hulst⟩ := h1
      rw [List.mem_map] at hlst
      obtain ⟨pair, hpair, hpeq⟩ := hlst
      rw [List.mem_map] at hpair
      obtain ⟨d, hd, hdeq⟩ := hpair
      subst hdeq
      subst hpeq
      rw [handle_url_result_own_url env c _ d u hulst]
      exact hdisp d hd

theorem internalInv_initState (env : Env) (base_url : String) (mt md : Nat) :
    InternalInv env (initCrawler env base_url mt md)
      (initState env (initCrawler env base_url mt md)) := by
  constructor
  · intro e he
    unfold initState at he
    dsimp only at he
    split at he
    · obtain ⟨u, hu, hueq⟩ := List.mem_map.mp he
      rw [← hueq]
      exact parse_sitemap_internal env _ u hu
    · rw [List.mem_singleton] at he
      subst he
      simp [is_internal, initCrawler]
  · intro u hu
    unfold initState at hu
    simp at hu

theorem internalInv_crawlLoop (env : Env) (c : Crawler) (n : Nat) (s : CrawlState)
    (h : InternalInv env c s) : InternalInv env c (crawlLoop env c n s) := by
  induction n generalizing s with
  | zero => exact h
  | succ m ih =>
    unfold crawlLoop
    split
    · exact h
    · exact ih _ (internalInv_applyRound env c s h)

/-- C6: every URL in the result list of a whole crawl is same-domain
relative to the base URL — its netloc is empty or equals the base domain —
whether it entered through the sitemap seed, the homepage seed, or link
extraction. -/
theorem result_urls_internal (env : Env) (base_url : String) (mt md fuel : Nat) :
    ∀ u ∈ (crawlRun env base_url mt md fuel).result_urls,
      is_internal env (initCrawler env base_url mt md) u = true := by
  intro u hu
  unfold crawlRun at hu
  exact (internalInv_crawlLoop env _ fuel _ (internalInv_initState env base_url mt md)).2 u hu

set_option maxRecDepth 10000 in
theorem result_urls_internal_witness :
    is_internal envUp (initCrawler envUp "https://w.test/" 500 3) "https://w.test/" = true :=
  result_urls_internal envUp "https://w.test/" 500 3 2 "https://w.test/" (by decide)

/-! Helper lemma for graceful degradation. -/

/-- One round on a single-entry fresh frontier in a world where every fetch
raises: the entry is dispatched, fails, and the frontier empties. -/
theorem applyRound_seed_all_fail (env : Env) (c : Crawler) (b : String)
    (hresp : ∀ u, env.response u = none) (hmt : 1 ≤ c.max_tasks) :
    applyRound env c { urls_to_visit := [(b, 0)], visited_urls := [], result_urls := [] } =
      { urls_to_visit := [], visited_urls := [b], result_urls := [] } := by
  have hmin : batchLen c { urls_to_visit := [(b, 0)], visited_urls := [], result_urls := [] } = 1 := by
    unfold batchLen
    simp
    omega
  unfold applyRound roundDispatched roundBatch
  rw [hmin]
  simp [keepEntry, handle_url, fetch, hresp]

/-- C9 counterexample: with the invalid base URL string `not a url` (and a
world where consequently every request raises) the crawl does not surface
any configuration error — `crawl` has no failure channel at all — but runs
to completion, visiting the normalized seed and producing an empty result
list. -/
theorem invalid_base_url_counterexample :
    crawlRun envBad "not a url" 500 3 5 =
      { urls_to_visit := [], visited_urls := ["not a url/"], result_urls := [] } := by
  decide

/-- C9 amended: no failure aborts the crawl, an invalid base URL included:
whenever every page request raises and the sitemap request raises — as
happens when the base URL is not a well-formed absolute URL — the crawl
still runs to completion with an empty result list and a drained
frontier. -/
theorem invalid_base_url_not_fatal (env : Env) (base_url : String) (mt md fuel : Nat)
    (hresp : ∀ u, env.response u = none) (hsm : env.sitemap_response = none)
    (hmt : 1 ≤ mt) (hfuel : 1 ≤ fuel) :
    (crawlRun env base_url mt md fuel).result_urls = [] ∧
    (crawlRun env base_url mt md fuel).urls_to_visit = [] := by
  have hinit : initState env (initCrawler env base_url mt md) =
      { urls_to_visit := [((initCrawler env base_url mt md).base_url, 0)]
        visited_urls := []
        result_urls := [] } := by
    unfold initState parse_sitemap
    rw [hsm]
    rfl
  have hround := applyRound_seed_all_fail env (initCrawler env base_url mt md)
    (initCrawler env base_url mt md).base_url hresp hmt
  obtain ⟨k, rfl⟩ : ∃ k, fuel = k + 1 := ⟨fuel - 1, by omega⟩
  show (crawlLoop env (initCrawler env base_url mt md) (k + 1)
      (initState env (initCrawler env base_url mt md))).result_urls = [] ∧
    (crawlLoop env (initCrawler env base_url mt md) (k + 1)
      (initState env (initCrawler env base_url mt md))).urls_to_visit = []
  have hloop : crawlLoop env (initCrawler env base_url mt md) (k + 1)
      { urls_to_visit := [((initCrawler env base_url mt md).base_url, 0)]
        visited_urls := []
        result_urls := [] } =
      { urls_to_visit := []
        visited_urls := [(initCrawler env base_url mt md).base_url]
        result_urls := [] } := by
    conv_lhs => unfold crawlLoop
    rw [if_neg (by simp), hround]
    exact crawlLoop_of_empty env _ k _ rfl
  rw [hinit, hloop]
  exact ⟨rfl, rfl⟩

theorem invalid_base_url_not_fatal_witness :
    (crawlRun envBad "not a url" 500 3 5).result_urls = [] ∧
    (crawlRun envBad "not a url" 500 3 5).urls_to_visit = [] :=
  invalid_base_url_not_fatal envBad "not a url" 500 3 5 (fun _ => rfl) rfl
    (by omega) (by omega)

end SmartBFSAsyncCrawler
